import Mathlib

/-!
Verification development for the lox-tw tree-walking Lox interpreter.

The Rust sources are shallowly embedded: pure functions become Lean
functions, reference-counted shared mutable state (`Gc<GcCell<...>>` for
environment frames and instance field maps) becomes an explicit store
indexed by `Nat` references threaded through an interpreter state, and
fallible code returns `Except`.  Unbounded recursion in the interpreter is
made total with an explicit fuel parameter; fuel exhaustion is a dedicated
error value that no theorem ever confuses with a genuine outcome.
-/

namespace LoxTW

/-- Shallow model of Rust `f64` as used by the interpreter (`Object::Number`).
Finite values are modelled exactly as rationals (rounding of arithmetic is
abstracted away; no claim depends on rounding), NaNs carry a payload so that
distinct NaN bit patterns exist.  Infinities are not modelled; no claim
involves them.  IEEE-754 `==` on `f64` is `F64.beq`: any comparison with a
NaN is false, finite values compare by value. -/
inductive F64 where
  | nan (payload : Nat)
  | fin (q : ℚ)
  deriving DecidableEq

/-- Rust `f64::is_nan`. -/
def F64.isNan : F64 → Bool
  | .nan _ => true
  | .fin _ => false

/-- IEEE-754 `==` on `f64` (Rust `PartialEq for f64`): false whenever either
operand is NaN, even the same NaN. -/
def F64.beq : F64 → F64 → Bool
  | .fin a, .fin b => a == b
  | _, _ => false

/-- Rust `f64` addition: NaN-propagating, exact on finite values. -/
def F64.add : F64 → F64 → F64
  | .fin a, .fin b => .fin (a + b)
  | .nan p, _ => .nan p
  | _, .nan p => .nan p

/-- Rust `f64` subtraction. -/
def F64.sub : F64 → F64 → F64
  | .fin a, .fin b => .fin (a - b)
  | .nan p, _ => .nan p
  | _, .nan p => .nan p

/-- Rust `f64` multiplication. -/
def F64.mul : F64 → F64 → F64
  | .fin a, .fin b => .fin (a * b)
  | .nan p, _ => .nan p
  | _, .nan p => .nan p

/-- Rust `f64` division; division by zero is abstracted to a NaN (IEEE would give
an infinity or NaN; no claim depends on the distinction). -/
def F64.div : F64 → F64 → F64
  | .fin a, .fin b => if b = 0 then .nan 0 else .fin (a / b)
  | .nan p, _ => .nan p
  | _, .nan p => .nan p

/-- Rust `f64` negation. -/
def F64.neg : F64 → F64
  | .fin a => .fin (-a)
  | .nan p => .nan p

/-- Rust `f64 <`: any comparison involving NaN is false. -/
def F64.ltb : F64 → F64 → Bool
  | .fin a, .fin b => decide (a < b)
  | _, _ => false

/-- Rust `f64 <=`. -/
def F64.leb : F64 → F64 → Bool
  | .fin a, .fin b => decide (a ≤ b)
  | _, _ => false

/-- Token kinds (`token_type.rs`; the file itself is generated/trivial and
not present under `src/`, the variant list is reconstructed from its uses in
`scanner.rs`, `parser.rs`, and `interpreter.rs`). -/
inductive TokenType where
  | leftParen | rightParen | leftBrace | rightBrace
  | comma | dot | minus | plus | semicolon | slash | star
  | bang | bangEqual | equal | equalEqual
  | greater | greaterEqual | less | lessEqual
  | identifier | string | number
  | and_ | class_ | else_ | false_ | fun_ | for_ | if_ | nil | or_
  | print | return_ | super_ | this_ | true_ | var_ | while_
  | eof
  deriving DecidableEq

/-- Rust `token.rs` `Token`.  The `literal` field (an optional `Object`) is only
read by the parser when building `Literal` expression nodes and never by the
resolver or interpreter; it is omitted here (literal values appear directly
in the embedded `Expr.literal` nodes), which avoids making `Token` mutually
recursive with the runtime value type. -/
structure Token where
  type_ : TokenType
  lexeme : String
  line : Nat
  deriving DecidableEq

mutual

/-- Rust `expr.rs` `Expr` (the generated AST: Assign, Binary, Call, Get, Grouping,
Literal, Logical, Set, Super, This, Unary, Variable).  Every expression node
carries the process-unique `usize` id (`unique_usize`) used as the key of the
resolver→interpreter locals map. -/
inductive Expr where
  | assign (id : Nat) (name : Token) (value : Expr)
  | binary (id : Nat) (left : Expr) (operator : Token) (right : Expr)
  | call (id : Nat) (callee : Expr) (paren : Token) (arguments : List Expr)
  | get (id : Nat) (object : Expr) (name : Token)
  | grouping (id : Nat) (expression : Expr)
  | literal (id : Nat) (value : Object)
  | logical (id : Nat) (left : Expr) (operator : Token) (right : Expr)
  | set (id : Nat) (object : Expr) (name : Token) (value : Expr)
  | super_ (id : Nat) (keyword : Token) (method : Token)
  | this_ (id : Nat) (keyword : Token)
  | unary (id : Nat) (operator : Token) (right : Expr)
  | variable_ (id : Nat) (name : Token)

/-- Rust `stmt.rs` `Stmt`.  A class statement's superclass is an
`Option<Gc<expr::Variable>>`, embedded as the variable node's id and name
token.  There is no `for` statement variant: `for` is desugared away by the
parser. -/
inductive Stmt where
  | block (statements : List Stmt)
  | class_ (name : Token) (superclass : Option (Nat × Token)) (methods : List FunctionDecl)
  | expression (e : Expr)
  | function (decl : FunctionDecl)
  | if_ (condition : Expr) (thenBranch : Stmt) (elseBranch : Option Stmt)
  | print (e : Expr)
  | return_ (keyword : Token) (value : Option Expr)
  | var_ (name : Token) (initializer : Option Expr)
  | while_ (condition : Expr) (body : Stmt)

/-- Rust `stmt.rs` `stmt::Function` (a function declaration: name, parameters,
body). -/
inductive FunctionDecl where
  | mk (name : Token) (params : List Token) (body : List Stmt)

/-- Rust `object.rs` `Object`: the runtime value. -/
inductive Object where
  | boolean (b : Bool)
  | callable (c : LoxCallable)
  | class_ (c : LoxClass)
  | instance_ (i : LoxInstance)
  | nil
  | number (n : F64)
  | string (s : String)

/-- Rust `lox_callable.rs` `LoxCallable`: class constructor, built-in clock, or
user function.  `Clock` holds only its process-unique id. -/
inductive LoxCallable where
  | class_ (c : LoxClass)
  | clock (id : Nat)
  | function (f : LoxFunction)

/-- Rust `lox_class.rs` `LoxClassInternal` (behind the `Gc` in `LoxClass`):
name, optional superclass, method table (a `HashMap<String, LoxFunction>`
modelled as an association list with `HashMap` insert/lookup semantics), and
the process-unique `u128` id from `unique_u128`. -/
inductive LoxClass where
  | mk (name : String) (superclass : Option LoxClass)
      (methods : List (String × LoxFunction)) (id : Nat)

/-- Rust `lox_function.rs` `LoxFunction`: initializer flag, captured closure
frame (a reference into the environment store), declaration, and
process-unique id. -/
inductive LoxFunction where
  | mk (isInit : Bool) (closure : Nat) (declaration : FunctionDecl) (id : Nat)

/-- Rust `lox_instance.rs` `LoxInstance`: class plus the shared mutable field map
`Gc<GcCell<HashMap<String, Gc<Object>>>>`, modelled as a reference into the
interpreter state's field-map store.  Note: `LoxInstance` derives
`PartialEq` in the source and carries no unique id of its own. -/
inductive LoxInstance where
  | mk (classOf : LoxClass) (fields : Nat)

end

/-- Expression node id accessor (`expr.id()`). -/
def Expr.exprId : Expr → Nat
  | .assign i _ _ => i
  | .binary i _ _ _ => i
  | .call i _ _ _ => i
  | .get i _ _ => i
  | .grouping i _ => i
  | .literal i _ => i
  | .logical i _ _ _ => i
  | .set i _ _ _ => i
  | .super_ i _ _ => i
  | .this_ i _ => i
  | .unary i _ _ => i
  | .variable_ i _ => i

def FunctionDecl.name : FunctionDecl → Token
  | .mk n _ _ => n

def FunctionDecl.params : FunctionDecl → List Token
  | .mk _ p _ => p

def FunctionDecl.body : FunctionDecl → List Stmt
  | .mk _ _ b => b

def LoxClass.name : LoxClass → String
  | .mk n _ _ _ => n

def LoxClass.superclass : LoxClass → Option LoxClass
  | .mk _ s _ _ => s

def LoxClass.methods : LoxClass → List (String × LoxFunction)
  | .mk _ _ m _ => m

def LoxClass.id : LoxClass → Nat
  | .mk _ _ _ i => i

def LoxFunction.isInit : LoxFunction → Bool
  | .mk b _ _ _ => b

def LoxFunction.closure : LoxFunction → Nat
  | .mk _ c _ _ => c

def LoxFunction.declaration : LoxFunction → FunctionDecl
  | .mk _ _ d _ => d

def LoxFunction.id : LoxFunction → Nat
  | .mk _ _ _ i => i

def LoxInstance.classOf : LoxInstance → LoxClass
  | .mk c _ => c

def LoxInstance.fields : LoxInstance → Nat
  | .mk _ f => f

/-! ## Maps and the interpreter state

`HashMap` is modelled as an association list with `HashMap` semantics:
`assocInsert` replaces the value of an existing key in place, keeping keys
unique; `List.lookup` from core is the lookup.  Iteration order is never
observed by the embedded code. -/

/-- Rust `HashMap::insert`: replace the binding of `k` if present, otherwise add
it. -/
def assocInsert {κ α : Type} [BEq κ] : List (κ × α) → κ → α → List (κ × α)
  | [], k, v => [(k, v)]
  | (k', v') :: rest, k, v =>
    if k' == k then (k, v) :: rest else (k', v') :: assocInsert rest k v

/-- One environment frame (`environment.rs` `EnvironmentInternal`): the
optional enclosing frame is a reference into the environment store. -/
structure Frame where
  enclosing : Option Nat
  values : List (String × Object)

/-- Error channel of the interpreter (`lox_result::Result`'s error side).
`runtime` is `runtime_error.rs` `RuntimeError`; `ret` is `lox_return.rs`
`Return` (a control-flow signal travelling on the error channel, exactly as
in the source); `panicked` models a Rust `panic!`/`unwrap`/`unreachable!`;
`outOfFuel` is an artifact of the fuel-bounded embedding and corresponds to
no behaviour of the source. -/
inductive Err where
  | runtime (token : Token) (message : String)
  | ret (value : Object)
  | panicked (message : String)
  | outOfFuel

/-- Rust `interpreter.rs` `Interpreter` together with the stores backing the
`Gc<GcCell<...>>` shared mutable data: `envs` holds environment frames,
`fieldMaps` holds instance field maps; references are indices.  `locals` is
the resolver-populated map from expression-node id to distance.  `output` is
the print sink (`InterpreterOutput::ByteVec`), one entry per `print`.
`nextId` is the `unique_u128` counter. -/
structure State where
  envs : List Frame
  fieldMaps : List (List (String × Object))
  globals : Nat
  environment : Nat
  locals : List (Nat × Nat)
  output : List String
  nextId : Nat

/-- Rust `unique_u128`: increment the counter, return the new value. -/
def freshId (s : State) : State × Nat :=
  ({ s with nextId := s.nextId + 1 }, s.nextId + 1)

/-- Fetch a frame; a dangling reference behaves as an empty root frame
(dangling references never occur in reachable states). -/
def getFrame (s : State) (ref : Nat) : Frame :=
  s.envs.getD ref ⟨none, []⟩

/-- Overwrite a frame in the store. -/
def setFrame (s : State) (ref : Nat) (fr : Frame) : State :=
  { s with envs := s.envs.set ref fr }

/-- Rust `Environment::new`: allocate a fresh frame with the given enclosing
frame, returning its reference. -/
def newEnv (s : State) (enclosing : Option Nat) : State × Nat :=
  ({ s with envs := s.envs ++ [⟨enclosing, []⟩] }, s.envs.length)

/-- Rust `EnvironmentInternal::define`: unconditional insert in this frame. -/
def envDefine (s : State) (ref : Nat) (name : String) (v : Object) : State :=
  let fr := getFrame s ref
  setFrame s ref { fr with values := assocInsert fr.values name v }

/-- Rust `EnvironmentInternal::get`: look up here, else delegate to the enclosing
frame; if the chain is exhausted the error is "Undefined variable '<name>'."
(with quotes) on the name token.  The `walk` fuel bounds the enclosing-chain
walk (callers pass the store size; every reachable chain is shorter). -/
def envGet (walk : Nat) (s : State) (ref : Nat) (name : Token) : Except Err Object :=
  match walk with
  | 0 => .error (.panicked "environment chain walk exhausted")
  | walk' + 1 =>
    let fr := getFrame s ref
    match fr.values.lookup name.lexeme with
    | some v => .ok v
    | none =>
      match fr.enclosing with
      | some enc =>
        -- the Rust code discards the inner error (`.ok()`) and re-raises
        -- with the same token and message, which is observably identical
        match envGet walk' s enc name with
        | .ok v => .ok v
        | .error _ =>
          .error (.runtime name ("Undefined variable '" ++ name.lexeme ++ "'."))
      | none =>
        .error (.runtime name ("Undefined variable '" ++ name.lexeme ++ "'."))

/-- Rust `EnvironmentInternal::assign`: overwrite here if the name is bound, else
delegate to the enclosing frame; if the chain is exhausted the error is
"Undefined variable <name>." (no quotes, unlike `get`) on the name token. -/
def envAssign (walk : Nat) (s : State) (ref : Nat) (name : Token) (v : Object) :
    State × Except Err Unit :=
  match walk with
  | 0 => (s, .error (.panicked "environment chain walk exhausted"))
  | walk' + 1 =>
    let fr := getFrame s ref
    if (fr.values.lookup name.lexeme).isSome then
      (setFrame s ref { fr with values := assocInsert fr.values name.lexeme v }, .ok ())
    else
      match fr.enclosing with
      | some enc => envAssign walk' s enc name v
      | none =>
        (s, .error (.runtime name ("Undefined variable " ++ name.lexeme ++ ".")))

/-- Rust `Environment::ancestor`: walk `distance` enclosing links.  The Rust code
`unwrap`s the enclosing link, panicking when the chain is too short. -/
def ancestor (s : State) (ref : Nat) : Nat → Except Err Nat
  | 0 => .ok ref
  | d + 1 =>
    match (getFrame s ref).enclosing with
    | some enc => ancestor s enc d
    | none => .error (.panicked "called Option.unwrap on a None value")

/-- Rust `Environment::get_at` / `EnvironmentInternal::get_at`: read directly in
the `distance`-th ancestor; a missing binding is the panic
"Didn't find local variable <name> at distance <distance>". -/
def envGetAt (s : State) (ref : Nat) (distance : Nat) (name : String) :
    Except Err Object :=
  match ancestor s ref distance with
  | .error e => .error e
  | .ok aref =>
    match (getFrame s aref).values.lookup name with
    | some v => .ok v
    | none =>
      .error (.panicked
        ("Didn't find local variable " ++ name ++ " at distance " ++ toString distance))

/-- Rust `Environment::assign_at` / `EnvironmentInternal::assign_at`: an
unconditional `HashMap::insert` in the `distance`-th ancestor. -/
def envAssignAt (s : State) (ref : Nat) (distance : Nat) (name : Token) (v : Object) :
    State × Except Err Unit :=
  match ancestor s ref distance with
  | .error e => (s, .error e)
  | .ok aref =>
    let fr := getFrame s aref
    (setFrame s aref { fr with values := assocInsert fr.values name.lexeme v }, .ok ())

/-! ## Classes, callables, equality -/

/-- Rust `LoxClassInternal::find_method`: the class's own table first, then the
superclass chain. -/
def LoxClass.findMethod : LoxClass → String → Option LoxFunction
  | .mk _ superclass methods _, name =>
    match methods.lookup name with
    | some m => some m
    | none =>
      match superclass with
      | some sc => sc.findMethod name
      | none => none

/-- Rust `LoxFunction::arity`: the parameter count. -/
def LoxFunction.arity (f : LoxFunction) : Nat :=
  f.declaration.params.length

/-- Rust `LoxClassInternal::arity`: the `init` arity when an initializer exists,
else 0. -/
def LoxClass.arity (c : LoxClass) : Nat :=
  match c.findMethod "init" with
  | some i => i.arity
  | none => 0

/-- Rust `LoxCallable::arity`. -/
def LoxCallable.arity : LoxCallable → Nat
  | .class_ c => c.arity
  | .clock _ => 0
  | .function f => f.arity

/-- Rust `LoxCallable::id`. -/
def LoxCallable.id : LoxCallable → Nat
  | .class_ c => c.id
  | .clock i => i
  | .function f => f.id

/-- Rust `interpreter.rs` `is_truthy`: nil and false are falsy, everything else
is truthy. -/
def isTruthy : Object → Bool
  | .nil => false
  | .boolean b => b
  | _ => true

/-- Rust `HashMap` `PartialEq`: equal sizes and every key of the left map bound
to an equal value in the right map (keys are unique). -/
def mapsEqBy {α : Type} (eq : α → α → Bool) (m1 m2 : List (String × α)) : Bool :=
  m1.length == m2.length &&
    m1.all fun p =>
      match m2.lookup p.1 with
      | some v2 => eq p.2 v2
      | none => false

/-- Rust `impl PartialEq for Object` (`object.rs`), including the derived
`PartialEq for LoxInstance` (`lox_instance.rs`), which compares the class
(by id, via `PartialEq for LoxClass`/`LoxClassInternal`) and the field maps
by value (`Gc`/`GcCell` compare their contents).  Callables and classes
compare by their process-unique id.  The fuel bounds the recursion through
instance field maps (the Rust recursion is bounded only by the object graph,
which can in principle be cyclic); it is not consumed on any other variant. -/
def objEq (s : State) : Nat → Object → Object → Bool
  | fuel, a, b =>
    match a, b with
    | .boolean x, .boolean y => x == y
    | .callable x, .callable y => x.id == y.id
    | .class_ x, .class_ y => x.id == y.id
    | .instance_ x, .instance_ y =>
      x.classOf.id == y.classOf.id &&
        match fuel with
        | 0 => false
        | fuel' + 1 =>
          mapsEqBy (objEq s fuel') (s.fieldMaps.getD x.fields [])
            (s.fieldMaps.getD y.fields [])
    | .nil, .nil => true
    | .number x, .number y => F64.beq x y
    | .string x, .string y => x == y
    | _, _ => false

/-- Rust `interpreter.rs` `is_equal`: two NaN numbers compare equal (mimicking
Java's `NaN.equals(NaN)`, contrary to IEEE-754); everything else delegates
to `Object`'s `PartialEq`. -/
def isEqual (s : State) (fuel : Nat) (a b : Object) : Bool :=
  match a, b with
  | .number x, .number y =>
    if x.isNan && y.isNan then true else objEq s fuel a b
  | _, _ => objEq s fuel a b

/-- Display form of an `f64` (Rust `{}` on `f64`).  Exact decimal formatting
is abstracted: integral values print without a fractional part, which is the
only aspect any test observes; no claim depends on the rest. -/
def F64.toDisplay : F64 → String
  | .nan _ => "NaN"
  | .fin q => if q.den = 1 then toString q.num else toString q.num ++ "/" ++ toString q.den

/-- Rust `impl Display` for `Object` (via the `Display` impls of
`LoxCallable`, `LoxClass`, `LoxInstance`, `LoxFunction`). -/
def displayObject : Object → String
  | .boolean b => if b then "true" else "false"
  | .callable (.class_ c) => c.name
  | .callable (.clock _) => "<global fn>"
  | .callable (.function f) => "<fn " ++ f.declaration.name.lexeme ++ ">"
  | .class_ c => c.name
  | .instance_ i => i.classOf.name ++ " instance"
  | .nil => "nil"
  | .number n => n.toDisplay
  | .string s => s

/-! ## The interpreter

`interpreter.rs`, `lox_function.rs` (`LoxFunction::call`), `lox_class.rs`
(`LoxClass::call`), `lox_callable.rs` (`LoxCallable::call`) form one
mutually recursive knot.  It is embedded as a single function `interp`,
structurally recursive on a fuel parameter, dispatching on a request type
whose constructors correspond to the source functions:
`Req.stmt` ↔ `Interpreter::execute` (with the `visit_*_stmt` methods
inlined into the dispatch), `Req.seq` ↔ the statement loops,
`Req.block` ↔ `Interpreter::execute_block`, `Req.expr` ↔
`Interpreter::evaluate` (with the `visit_*_expr` methods inlined),
`Req.exprs` ↔ the argument-evaluation loop of `visit_call_expr`, and
`Req.call` ↔ `LoxCallable::call` with its three variants.  Every recursive
call decrements the fuel; with enough fuel the embedding computes exactly
what the source computes. -/

/-- Requests: which source function to run. -/
inductive Req where
  | stmt (st : Stmt)
  | seq (ss : List Stmt)
  | block (ss : List Stmt) (env : Nat)
  | expr (e : Expr)
  | exprs (es : List Expr)
  | call (c : LoxCallable) (args : List Object)

/-- Results: statements yield unit, expressions an object, argument lists a
list of objects. -/
inductive Res where
  | unit
  | obj (o : Object)
  | objs (os : List Object)

/-- Rust `Interpreter::look_up_variable`: a recorded distance means `get_at` from
the current environment, otherwise a global lookup. -/
def lookUpVariable (s : State) (name : Token) (exprId : Nat) : Except Err Object :=
  match s.locals.lookup exprId with
  | some d => envGetAt s s.environment d name.lexeme
  | none => envGet s.envs.length s s.globals name

/-- Rust `interpreter.rs` `check_number_operand`. -/
def checkNumberOperand (operator : Token) (operand : Object) : Except Err F64 :=
  match operand with
  | .number n => .ok n
  | _ => .error (.runtime operator "Operand must be a number.")

/-- Rust `interpreter.rs` `check_number_operands`. -/
def checkNumberOperands (operator : Token) (left right : Object) :
    Except Err (F64 × F64) :=
  match left, right with
  | .number a, .number b => .ok (a, b)
  | _, _ => .error (.runtime operator "Operands must be numbers.")

/-- The class-to-callable wrap at the top of `visit_call_expr`: an evaluated
callee that is a class is treated as its class-callable. -/
def calleeWrap : Object → Object
  | .class_ c => .callable (.class_ c)
  | o => o

/-- Rust `LoxFunction::bind`: a fresh frame enclosing the closure, binding
`"this"` to the instance; the bound method is a new `LoxFunction` with a new
unique id. -/
def bindFunction (s : State) (f : LoxFunction) (inst : LoxInstance) :
    State × LoxFunction :=
  let (s1, env) := newEnv s (some f.closure)
  let s2 := envDefine s1 env "this" (.instance_ inst)
  let (s3, nid) := freshId s2
  (s3, .mk f.isInit env f.declaration nid)

/-- Rust `LoxInstance::get`: the field map first, then a method looked up through
the superclass chain and bound to this instance; otherwise the runtime error
"Undefined property <name>." (no quotes in `lox_instance.rs`) on the name
token. -/
def instanceGet (s : State) (i : LoxInstance) (name : Token) :
    State × Except Err Object :=
  match (s.fieldMaps.getD i.fields []).lookup name.lexeme with
  | some v => (s, .ok v)
  | none =>
    match i.classOf.findMethod name.lexeme with
    | some m =>
      let (s1, bound) := bindFunction s m i
      (s1, .ok (.callable (.function bound)))
    | none =>
      (s, .error (.runtime name ("Undefined property " ++ name.lexeme ++ ".")))

/-- Rust `LoxInstance::set`: unconditional insert into the instance's field
map. -/
def instanceSet (s : State) (i : LoxInstance) (name : Token) (v : Object) : State :=
  { s with
    fieldMaps :=
      s.fieldMaps.set i.fields
        (assocInsert (s.fieldMaps.getD i.fields []) name.lexeme v) }

/-- The first half of `LoxFunction::call`: allocate the call frame enclosing
the captured closure and define each parameter to its argument (Rust `zip`
stops at the shorter list; the arity check in `visit_call_expr` makes the
lengths equal on every reachable call). -/
def loxFunctionEnv (s : State) (f : LoxFunction) (args : List Object) : State × Nat :=
  let (s1, env) := newEnv s (some f.closure)
  let rec defineAll (s : State) : List (Token × Object) → State
    | [] => s
    | (p, a) :: rest => defineAll (envDefine s env p.lexeme a) rest
  (defineAll s1 (f.declaration.params.zip args), env)

/-- Allocate a fresh empty field map (`LoxInstance::new`). -/
def newFieldMap (s : State) : State × Nat :=
  ({ s with fieldMaps := s.fieldMaps ++ [[]] }, s.fieldMaps.length)

/-- The interpreter. -/
def interp : Nat → Req → State → State × Except Err Res
  | 0, _, s => (s, .error .outOfFuel)
  | fuel + 1, req, s =>
    match req with
    | .seq [] => (s, .ok .unit)
    | .seq (st :: rest) =>
      match interp fuel (.stmt st) s with
      | (s', .error e) => (s', .error e)
      | (s', .ok _) => interp fuel (.seq rest) s'
    | .block ss env =>
      -- Interpreter::execute_block: save the current frame, install the new
      -- one, run the statements, and restore the saved frame on every exit
      -- path (normal completion and any error, including a Return signal).
      let previous := s.environment
      match interp fuel (.seq ss) { s with environment := env } with
      | (s', .error e) => ({ s' with environment := previous }, .error e)
      | (s', .ok _) => ({ s' with environment := previous }, .ok .unit)
    | .stmt st =>
      match st with
      | .block ss =>
        -- visit_block_stmt: a fresh child frame of the current one
        let (s1, env) := newEnv s (some s.environment)
        interp fuel (.block ss env) s1
      | .class_ name superclass methods =>
        -- visit_class_stmt
        let superEval : State × Except Err (Option LoxClass) :=
          match superclass with
          | none => (s, .ok none)
          | some (vid, sname) =>
            match interp fuel (.expr (.variable_ vid sname)) s with
            | (s', .error e) => (s', .error e)
            | (s', .ok (.obj (.class_ c))) => (s', .ok (some c))
            | (s', .ok _) =>
              (s', .error (.runtime sname "Superclass must be a class."))
        match superEval with
        | (s1, .error e) => (s1, .error e)
        | (s1, .ok sc) =>
          let s2 := envDefine s1 s1.environment name.lexeme .nil
          let s3 :=
            match superclass, sc with
            | some _, some c =>
              let (sa, env) := newEnv s2 (some s2.environment)
              let sb := { sa with environment := env }
              envDefine sb env "super" (.class_ c)
            | _, _ => s2
          let rec buildMethods (s : State) (acc : List (String × LoxFunction)) :
                List FunctionDecl → State × List (String × LoxFunction)
              | [] => (s, acc)
              | d :: rest =>
                let (s', nid) := freshId s
                let f := LoxFunction.mk (d.name.lexeme == "init") s.environment d nid
                buildMethods s' (assocInsert acc d.name.lexeme f) rest
            let (s4, methodTable) := buildMethods s3 [] methods
            let (s5, cid) := freshId s4
            let klass := LoxClass.mk name.lexeme sc methodTable cid
            let popped : State × Except Err Unit :=
              if superclass.isSome then
                match (getFrame s5 s5.environment).enclosing with
                | some enc => ({ s5 with environment := enc }, .ok ())
                | none =>
                  (s5, .error (.panicked
                    "Expect an enclosing environment if there's a superclass."))
              else (s5, .ok ())
            match popped with
            | (s6, .error e) => (s6, .error e)
            | (s6, .ok _) =>
              match envAssign s6.envs.length s6 s6.environment name (.class_ klass) with
              | (s7, .error e) => (s7, .error e)
              | (s7, .ok _) => (s7, .ok .unit)
      | .expression e =>
        match interp fuel (.expr e) s with
        | (s', .error er) => (s', .error er)
        | (s', .ok _) => (s', .ok .unit)
      | .function decl =>
        -- visit_function_stmt: capture the current frame, define the name
        let (s1, nid) := freshId s
        let f := LoxFunction.mk false s1.environment decl nid
        (envDefine s1 s1.environment decl.name.lexeme (.callable (.function f)),
          .ok .unit)
      | .if_ cond thenBranch elseBranch =>
        match interp fuel (.expr cond) s with
        | (s', .error e) => (s', .error e)
        | (s', .ok (.obj v)) =>
          if isTruthy v then interp fuel (.stmt thenBranch) s'
          else
            match elseBranch with
            | some eb => interp fuel (.stmt eb) s'
            | none => (s', .ok .unit)
        | (s', .ok _) => (s', .error (.panicked "expected a value"))
      | .print e =>
        match interp fuel (.expr e) s with
        | (s', .error er) => (s', .error er)
        | (s', .ok (.obj v)) =>
          ({ s' with output := s'.output ++ [displayObject v] }, .ok .unit)
        | (s', .ok _) => (s', .error (.panicked "expected a value"))
      | .return_ _ value =>
        -- visit_return_stmt: the Return signal travels on the error channel
        match value with
        | some e =>
          match interp fuel (.expr e) s with
          | (s', .error er) => (s', .error er)
          | (s', .ok (.obj v)) => (s', .error (.ret v))
          | (s', .ok _) => (s', .error (.panicked "expected a value"))
        | none => (s, .error (.ret .nil))
      | .var_ name initializer =>
        match initializer with
        | some e =>
          match interp fuel (.expr e) s with
          | (s', .error er) => (s', .error er)
          | (s', .ok (.obj v)) =>
            (envDefine s' s'.environment name.lexeme v, .ok .unit)
          | (s', .ok _) => (s', .error (.panicked "expected a value"))
        | none => (envDefine s s.environment name.lexeme .nil, .ok .unit)
      | .while_ cond body =>
        match interp fuel (.expr cond) s with
        | (s', .error e) => (s', .error e)
        | (s', .ok (.obj v)) =>
          if isTruthy v then
            match interp fuel (.stmt body) s' with
            | (s'', .error e) => (s'', .error e)
            | (s'', .ok _) => interp fuel (.stmt (.while_ cond body)) s''
          else (s', .ok .unit)
        | (s', .ok _) => (s', .error (.panicked "expected a value"))
    | .expr e =>
      match e with
      | .assign eid name value =>
        -- visit_assign_expr
        match interp fuel (.expr value) s with
        | (s', .error er) => (s', .error er)
        | (s', .ok (.obj v)) =>
          match s'.locals.lookup eid with
          | some distance =>
            match envAssignAt s' s'.environment distance name v with
            | (s'', .ok _) => (s'', .ok (.obj v))
            | (s'', .error er) => (s'', .error er)
          | none =>
            match envAssign s'.envs.length s' s'.globals name v with
            | (s'', .ok _) => (s'', .ok (.obj v))
            | (s'', .error er) => (s'', .error er)
        | (s', .ok _) => (s', .error (.panicked "expected a value"))
      | .binary _ left operator right =>
        match interp fuel (.expr left) s with
        | (s', .error er) => (s', .error er)
        | (s', .ok (.obj l)) =>
          match interp fuel (.expr right) s' with
          | (s'', .error er) => (s'', .error er)
          | (s'', .ok (.obj r)) =>
            (match operator.type_ with
             | .bangEqual => (s'', .ok (.obj (.boolean (!isEqual s'' fuel l r))))
             | .equalEqual => (s'', .ok (.obj (.boolean (isEqual s'' fuel l r))))
             | .greater =>
               match checkNumberOperands operator l r with
               | .ok (a, b) => (s'', .ok (.obj (.boolean (F64.ltb b a))))
               | .error er => (s'', .error er)
             | .greaterEqual =>
               match checkNumberOperands operator l r with
               | .ok (a, b) => (s'', .ok (.obj (.boolean (F64.leb b a))))
               | .error er => (s'', .error er)
             | .less =>
               match checkNumberOperands operator l r with
               | .ok (a, b) => (s'', .ok (.obj (.boolean (F64.ltb a b))))
               | .error er => (s'', .error er)
             | .lessEqual =>
               match checkNumberOperands operator l r with
               | .ok (a, b) => (s'', .ok (.obj (.boolean (F64.leb a b))))
               | .error er => (s'', .error er)
             | .minus =>
               match checkNumberOperands operator l r with
               | .ok (a, b) => (s'', .ok (.obj (.number (F64.sub a b))))
               | .error er => (s'', .error er)
             | .plus =>
               match l, r with
               | .number a, .number b => (s'', .ok (.obj (.number (F64.add a b))))
               | .string a, .string b => (s'', .ok (.obj (.string (a ++ b))))
               | _, _ =>
                 (s'', .error (.runtime operator
                   "Operands must be two numbers or two strings."))
             | .slash =>
               match checkNumberOperands operator l r with
               | .ok (a, b) => (s'', .ok (.obj (.number (F64.div a b))))
               | .error er => (s'', .error er)
             | .star =>
               match checkNumberOperands operator l r with
               | .ok (a, b) => (s'', .ok (.obj (.number (F64.mul a b))))
               | .error er => (s'', .error er)
             | _ => (s'', .error (.panicked "internal error: entered unreachable code")))
          | (s'', .ok _) => (s'', .error (.panicked "expected a value"))
        | (s', .ok _) => (s', .error (.panicked "expected a value"))
      | .call _ callee paren args =>
        -- visit_call_expr: callee first, then all arguments left to right,
        -- then the callable check, then the arity check, then the call
        match interp fuel (.expr callee) s with
        | (s', .error er) => (s', .error er)
        | (s', .ok (.obj c0)) =>
          let c := calleeWrap c0
          match interp fuel (.exprs args) s' with
          | (s'', .error er) => (s'', .error er)
          | (s'', .ok (.objs vs)) =>
            match c with
            | .callable f =>
              if vs.length ≠ f.arity then
                (s'', .error (.runtime paren
                  ("Expected " ++ toString f.arity ++ " arguments but got " ++
                    toString vs.length ++ ".")))
              else interp fuel (.call f vs) s''
            | _ =>
              (s'', .error (.runtime paren "Can only call functions and classes."))
          | (s'', .ok _) => (s'', .error (.panicked "expected values"))
        | (s', .ok _) => (s', .error (.panicked "expected a value"))
      | .get _ object name =>
        match interp fuel (.expr object) s with
        | (s', .error er) => (s', .error er)
        | (s', .ok (.obj (.instance_ i))) =>
          match instanceGet s' i name with
          | (s'', .ok v) => (s'', .ok (.obj v))
          | (s'', .error er) => (s'', .error er)
        | (s', .ok (.obj _)) =>
          (s', .error (.runtime name "Only instances have properties."))
        | (s', .ok _) => (s', .error (.panicked "expected a value"))
      | .grouping _ inner => interp fuel (.expr inner) s
      | .literal _ v => (s, .ok (.obj v))
      | .logical _ left operator right =>
        match interp fuel (.expr left) s with
        | (s', .error er) => (s', .error er)
        | (s', .ok (.obj l)) =>
          match operator.type_ with
          | .or_ => if isTruthy l then (s', .ok (.obj l)) else interp fuel (.expr right) s'
          | .and_ => if !isTruthy l then (s', .ok (.obj l)) else interp fuel (.expr right) s'
          | _ => (s', .error (.panicked "internal error: entered unreachable code"))
        | (s', .ok _) => (s', .error (.panicked "expected a value"))
      | .set _ object name value =>
        -- visit_set_expr: the object is evaluated and checked to be an
        -- instance before the value is evaluated
        match interp fuel (.expr object) s with
        | (s', .error er) => (s', .error er)
        | (s', .ok (.obj (.instance_ i))) =>
          match interp fuel (.expr value) s' with
          | (s'', .error er) => (s'', .error er)
          | (s'', .ok (.obj v)) => (instanceSet s'' i name v, .ok (.obj v))
          | (s'', .ok _) => (s'', .error (.panicked "expected a value"))
        | (s', .ok (.obj _)) =>
          (s', .error (.runtime name "Only instances have fields."))
        | (s', .ok _) => (s', .error (.panicked "expected a value"))
      | .super_ eid _ method =>
        -- visit_super_expr
        match s.locals.lookup eid with
        | none =>
          (s, .error (.panicked "Expect a 'super' local if visiting a 'super' expr."))
        | some distance =>
          match envGetAt s s.environment distance "super" with
          | .error er => (s, .error er)
          | .ok superObj =>
            match superObj with
            | .class_ superclass =>
              -- (distance - 1 is Rust usize subtraction; distance ≥ 1 on
              -- every resolved 'super', the 0 case is unreachable)
              match envGetAt s s.environment (distance - 1) "this" with
              | .error er => (s, .error er)
              | .ok thisObj =>
                match thisObj with
                | .instance_ inst =>
                  match superclass.findMethod method.lexeme with
                  | some m =>
                    let (s1, bound) := bindFunction s m inst
                    (s1, .ok (.obj (.callable (.function bound))))
                  | none =>
                    (s, .error (.runtime method
                      ("Undefined property '" ++ method.lexeme ++ "'.")))
                | _ => (s, .error (.panicked "Expect 'super' to be a class object."))
            | _ => (s, .error (.panicked "Expect 'super' to be a class object."))
      | .this_ eid keyword =>
        match lookUpVariable s keyword eid with
        | .ok v => (s, .ok (.obj v))
        | .error er => (s, .error er)
      | .unary _ operator right =>
        match interp fuel (.expr right) s with
        | (s', .error er) => (s', .error er)
        | (s', .ok (.obj r)) =>
          match operator.type_ with
          | .bang => (s', .ok (.obj (.boolean (!isTruthy r))))
          | .minus =>
            match checkNumberOperand operator r with
            | .ok a => (s', .ok (.obj (.number a.neg)))
            | .error er => (s', .error er)
          | _ => (s', .error (.panicked "internal error: entered unreachable code"))
        | (s', .ok _) => (s', .error (.panicked "expected a value"))
      | .variable_ eid name =>
        match lookUpVariable s name eid with
        | .ok v => (s, .ok (.obj v))
        | .error er => (s, .error er)
    | .exprs [] => (s, .ok (.objs []))
    | .exprs (e :: rest) =>
      match interp fuel (.expr e) s with
      | (s', .error er) => (s', .error er)
      | (s', .ok (.obj v)) =>
        match interp fuel (.exprs rest) s' with
        | (s'', .error er) => (s'', .error er)
        | (s'', .ok (.objs vs)) => (s'', .ok (.objs (v :: vs)))
        | (s'', .ok _) => (s'', .error (.panicked "expected values"))
      | (s', .ok _) => (s', .error (.panicked "expected a value"))
    | .call c args =>
      match c with
      | .clock _ =>
        -- the built-in clock; the wall-clock reading is abstracted to a
        -- constant Number (no claim depends on its value)
        (s, .ok (.obj (.number (.fin 0))))
      | .class_ cls =>
        -- LoxClass::call: fresh instance; bind and invoke `init` if present
        let (s1, fref) := newFieldMap s
        let inst := LoxInstance.mk cls fref
        match cls.findMethod "init" with
        | some initM =>
          let (s2, bound) := bindFunction s1 initM inst
          match interp fuel (.call (.function bound) args) s2 with
          | (s3, .error e) => (s3, .error e)
          | (s3, .ok _) => (s3, .ok (.obj (.instance_ inst)))
        | none => (s1, .ok (.obj (.instance_ inst)))
      | .function f =>
        -- LoxFunction::call
        let (s1, env) := loxFunctionEnv s f args
        match interp fuel (.block f.declaration.body env) s1 with
        | (s2, .error (.ret v)) =>
          if f.isInit then (s2, (envGetAt s2 f.closure 0 "this").map .obj)
          else (s2, .ok (.obj v))
        | (s2, .error e) => (s2, .error e)
        | (s2, .ok _) =>
          if f.isInit then (s2, (envGetAt s2 f.closure 0 "this").map .obj)
          else (s2, .ok (.obj .nil))

/-- Rust `Interpreter::new`: a globals frame defining `clock` (whose `Clock::new`
takes the first unique id, 1). -/
def initState (locals : List (Nat × Nat)) : State :=
  { envs := [⟨none, [("clock", .callable (.clock 1))]⟩]
    fieldMaps := []
    globals := 0
    environment := 0
    locals := locals
    output := []
    nextId := 1 }

/-- Rust `Interpreter::interpret`: run the statements in order, stopping at the
first error, which is handed to the error handler (the driver's
`runtime_error` reporter).  The returned `Option Err` is the reported
error, if any. -/
def interpretRun (fuel : Nat) (statements : List Stmt) (s : State) :
    State × Option Err :=
  match interp fuel (.seq statements) s with
  | (s', .ok _) => (s', none)
  | (s', .error e) => (s', some e)

/-! ## The resolver (`resolver.rs`)

The resolver walks the statement tree, maintaining a stack of lexical
scopes, and records a distance for every resolved variable use in the
interpreter's locals map (`Interpreter::resolve`).  The walk is embedded
like the interpreter, as one fuel-structural function over a request type
(the walk is structurally terminating in the source; the fuel is an
embedding artifact and `stuck` records its exhaustion, which no reachable
run triggers). -/

/-- Rust `resolver.rs` `FunctionType`. -/
inductive FunctionType where
  | none_ | function_ | initializer_ | method_
  deriving DecidableEq

/-- Rust `resolver.rs` `ClassType`. -/
inductive ClassType where
  | none_ | class_ | subClass
  deriving DecidableEq

/-- The resolver's state: the scope stack (innermost scope first; the Rust
`Vec`'s top is its last element), the two state machines, the locals map
being built (the side channel into the interpreter), and the accumulated
static errors in report order. -/
structure RState where
  scopes : List (List (String × Bool))
  currentFunction : FunctionType
  currentClass : ClassType
  locals : List (Nat × Nat)
  errors : List (Token × String)
  stuck : Bool

/-- Rust `Resolver::error`: report through the error handler. -/
def rerror (st : RState) (t : Token) (m : String) : RState :=
  { st with errors := st.errors ++ [(t, m)] }

/-- Rust `Resolver::begin_scope`. -/
def beginScope (st : RState) : RState :=
  { st with scopes := [] :: st.scopes }

/-- Rust `Resolver::end_scope` (the Rust `pop` panics on an empty stack; every
`end_scope` is paired with a `begin_scope`, so that case is unreachable and
is modelled as a no-op drop). -/
def endScope (st : RState) : RState :=
  { st with scopes := st.scopes.tail }

/-- Rust `Resolver::declare`: when a scope is open, report a duplicate name in
the innermost scope and mark the name declared-but-not-defined.  With an
empty scope stack (global scope) it does nothing. -/
def declare (st : RState) (name : Token) : RState :=
  match st.scopes with
  | [] => st
  | top :: rest =>
    let st' :=
      if (top.lookup name.lexeme).isSome then
        rerror st name "Already a variable with this name in this scope."
      else st
    { st' with scopes := assocInsert top name.lexeme false :: rest }

/-- Rust `Resolver::define`: mark the name defined in the innermost scope. -/
def define (st : RState) (name : Token) : RState :=
  match st.scopes with
  | [] => st
  | top :: rest => { st with scopes := assocInsert top name.lexeme true :: rest }

/-- Rust `Resolver::resolve_local`: walk the scope stack innermost-outward; on
the first scope containing the name record the 0-based distance for this
node id (`interpreter.resolve`, a `HashMap::insert`); record nothing when no
scope contains it. -/
def resolveLocal (st : RState) (exprId : Nat) (name : Token) : RState :=
  let rec go : List (List (String × Bool)) → Nat → Option Nat
    | [], _ => none
    | sc :: rest, i => if (sc.lookup name.lexeme).isSome then some i else go rest (i + 1)
  match go st.scopes 0 with
  | some i => { st with locals := assocInsert st.locals exprId i }
  | none => st

/-- Resolver requests: `RReq.stmt` ↔ `resolve_stmt` (with the
`visit_*_stmt` methods inlined), `RReq.stmts` ↔ `resolve_stmts`,
`RReq.expr` ↔ `resolve_expr` (with the `visit_*_expr` methods inlined),
`RReq.exprs` ↔ the argument loop of `visit_call_expr`, `RReq.func` ↔
`resolve_function`, `RReq.methods` ↔ the method loop of
`visit_class_stmt`. -/
inductive RReq where
  | stmt (st : Stmt)
  | stmts (ss : List Stmt)
  | expr (e : Expr)
  | exprs (es : List Expr)
  | func (d : FunctionDecl) (t : FunctionType)
  | methods (ds : List FunctionDecl)

/-- The resolver walk. -/
def resolveR : Nat → RReq → RState → RState
  | 0, _, st => { st with stuck := true }
  | fuel + 1, req, st =>
    match req with
    | .stmts [] => st
    | .stmts (s :: rest) => resolveR fuel (.stmts rest) (resolveR fuel (.stmt s) st)
    | .exprs [] => st
    | .exprs (e :: rest) => resolveR fuel (.exprs rest) (resolveR fuel (.expr e) st)
    | .methods [] => st
    | .methods (d :: rest) =>
      -- visit_class_stmt's method loop: FunctionType::Initializer exactly
      -- when the method's name is "init", else Method
      let t :=
        if d.name.lexeme == "init" then FunctionType.initializer_
        else FunctionType.method_
      resolveR fuel (.methods rest) (resolveR fuel (.func d t) st)
    | .func d t =>
      -- resolve_function: swap in the function type, open the parameter
      -- scope, declare+define each parameter, resolve the body, restore
      let enclosingFunction := st.currentFunction
      let st1 := { st with currentFunction := t }
      let st2 := beginScope st1
      let st3 := d.params.foldl (fun acc p => define (declare acc p) p) st2
      let st4 := resolveR fuel (.stmts d.body) st3
      let st5 := endScope st4
      { st5 with currentFunction := enclosingFunction }
    | .stmt s =>
      match s with
      | .block ss => endScope (resolveR fuel (.stmts ss) (beginScope st))
      | .class_ name superclass methods =>
        -- visit_class_stmt
        let enclosingClass := st.currentClass
        let st1 := { st with currentClass := ClassType.class_ }
        let st2 := define (declare st1 name) name
        let st3 :=
          match superclass with
          | none => st2
          | some (vid, sname) =>
            let sta :=
              if name.lexeme == sname.lexeme then
                rerror st2 sname "A class can't inherit from itself."
              else st2
            let stb := { sta with currentClass := ClassType.subClass }
            -- visit_variable_expr on the superclass Variable node, inlined
            let stc :=
              if (stb.scopes.headD []).lookup sname.lexeme == some false then
                rerror stb sname "Can't read local variable in its own initializer."
              else stb
            resolveLocal stc vid sname
        let st4 :=
          match superclass with
          | some _ =>
            let sta := beginScope st3
            { sta with
              scopes :=
                match sta.scopes with
                | top :: rest => assocInsert top "super" true :: rest
                | [] => sta.scopes }
          | none => st3
        let st5 := beginScope st4
        let st6 :=
          { st5 with
            scopes :=
              match st5.scopes with
              | top :: rest => assocInsert top "this" true :: rest
              | [] => st5.scopes }
        let st7 := resolveR fuel (.methods methods) st6
        let st8 := endScope st7
        let st9 := if superclass.isSome then endScope st8 else st8
        { st9 with currentClass := enclosingClass }
      | .expression e => resolveR fuel (.expr e) st
      | .function d =>
        let st1 := define (declare st d.name) d.name
        resolveR fuel (.func d .function_) st1
      | .if_ cond thenBranch elseBranch =>
        let st1 := resolveR fuel (.stmt thenBranch) (resolveR fuel (.expr cond) st)
        match elseBranch with
        | some eb => resolveR fuel (.stmt eb) st1
        | none => st1
      | .print e => resolveR fuel (.expr e) st
      | .return_ keyword value =>
        let st1 :=
          if st.currentFunction = .none_ then
            rerror st keyword "Can't return from top-level code."
          else st
        match value with
        | some v =>
          let st2 :=
            if st1.currentFunction = .initializer_ then
              rerror st1 keyword "Can't return a value from an initializer."
            else st1
          resolveR fuel (.expr v) st2
        | none => st1
      | .var_ name initializer =>
        let st1 := declare st name
        let st2 :=
          match initializer with
          | some e => resolveR fuel (.expr e) st1
          | none => st1
        define st2 name
      | .while_ cond body => resolveR fuel (.stmt body) (resolveR fuel (.expr cond) st)
    | .expr e =>
      match e with
      | .assign eid name value => resolveLocal (resolveR fuel (.expr value) st) eid name
      | .binary _ left _ right =>
        resolveR fuel (.expr right) (resolveR fuel (.expr left) st)
      | .call _ callee _ args =>
        resolveR fuel (.exprs args) (resolveR fuel (.expr callee) st)
      | .get _ object _ => resolveR fuel (.expr object) st
      | .grouping _ inner => resolveR fuel (.expr inner) st
      | .literal _ _ => st
      | .logical _ left _ right =>
        resolveR fuel (.expr right) (resolveR fuel (.expr left) st)
      | .set _ object _ value =>
        -- visit_set_expr resolves the value before the object
        resolveR fuel (.expr object) (resolveR fuel (.expr value) st)
      | .super_ eid keyword _ =>
        let st1 :=
          if st.currentClass = .none_ then
            rerror st keyword "Can't use 'super' outside of a class."
          else if st.currentClass ≠ .subClass then
            rerror st keyword "Can't use 'super' in a class with no superclass."
          else st
        resolveLocal st1 eid keyword
      | .this_ eid keyword =>
        if st.currentClass = .none_ then
          rerror st keyword "Can't use 'this' outside of a class."
        else resolveLocal st eid keyword
      | .unary _ _ right => resolveR fuel (.expr right) st
      | .variable_ eid name =>
        let st1 :=
          if (st.scopes.headD []).lookup name.lexeme == some false then
            rerror st name "Can't read local variable in its own initializer."
          else st
        resolveLocal st1 eid name

/-- Rust `Resolver::new` followed by `resolve` on a whole program. -/
def resolveProgram (fuel : Nat) (statements : List Stmt) : RState :=
  resolveR fuel (.stmts statements)
    { scopes := [], currentFunction := .none_, currentClass := .none_,
      locals := [], errors := [], stuck := false }

/-! ## The parser's `for` desugaring (`parser.rs` `Parser::for_statement`)

Only the tree-building tail of `for_statement` is embedded: the clause
parsing above it produces the optional initializer statement, optional
condition and increment expressions, and the body, and the remainder of the
function assembles the desugared tree from them.  `freshId` stands for the
`unique_usize` id that `expr::Literal::make` gives the synthesized `true`
literal. -/

/-- The desugaring performed by `Parser::for_statement` after parsing the
clauses: wrap the body with the increment, default the condition to a
`true` literal (the source sets `condition` to `Some(Literal(true))` when it
was `None` and then unwraps it), build the `While`, and prepend the
initializer. -/
def forStatementDesugar (freshId : Nat) (initializer : Option Stmt)
    (condition : Option Expr) (increment : Option Expr) (body0 : Stmt) : Stmt :=
  let body1 :=
    match increment with
    | some incr => Stmt.block [body0, .expression incr]
    | none => body0
  let cond :=
    match condition with
    | none => Expr.literal freshId (.boolean true)
    | some c => c
  let body2 := Stmt.while_ cond body1
  match initializer with
  | some init => Stmt.block [init, body2]
  | none => body2

/-- The desugared form as the specification words it: "a Block containing
init (if any) followed by a While whose body is a Block of the original body
followed by an expression statement of the increment; a missing condition
becomes a Literal true". -/
def forDesugarSpec (freshId : Nat) (initializer : Option Stmt)
    (condition : Option Expr) (increment : Option Expr) (body0 : Stmt) : Stmt :=
  let w :=
    Stmt.while_
      (match condition with
       | some c => c
       | none => Expr.literal freshId (.boolean true))
      (match increment with
       | some incr => Stmt.block [body0, .expression incr]
       | none => body0)
  match initializer with
  | some init => Stmt.block [init, w]
  | none => w

/-! ## Concrete fixtures

Concrete tokens, values, states, and programs used by witnesses and
counterexamples. -/

def tokA : Token := ⟨.identifier, "a", 1⟩
def tokFoo : Token := ⟨.identifier, "foo", 1⟩
def tokClock : Token := ⟨.identifier, "clock", 1⟩
def tokRParen : Token := ⟨.rightParen, ")", 1⟩
def tokEqEq : Token := ⟨.equalEqual, "==", 1⟩

/-- The runtime-error scenario program: `fun foo(){ a = 1; } foo();`
(as parsed: expression-node ids 0–3 in creation order). -/
def prog7 : List Stmt :=
  [ .function (.mk tokFoo []
      [ .expression (.assign 1 tokA (.literal 0 (.number (.fin 1)))) ]),
    .expression (.call 3 (.variable_ 2 tokFoo) tokRParen []) ]

/-- The top-level double declaration program: `var a = 1; var a = 2;`. -/
def prog10 : List Stmt :=
  [ .var_ tokA (some (.literal 0 (.number (.fin 1)))),
    .var_ tokA (some (.literal 1 (.number (.fin 2)))) ]

/-- Rust `Resolver::new`'s state. -/
def rInit : RState :=
  { scopes := [], currentFunction := .none_, currentClass := .none_,
    locals := [], errors := [], stuck := false }

/-- A methodless class. -/
def classA : LoxClass := .mk "A" none [] 2

/-- Two instances of `classA` with distinct field-map references. -/
def instA0 : LoxInstance := .mk classA 0

def instA1 : LoxInstance := .mk classA 1

/-- A state owning one empty instance field map. -/
def stOneInst : State := { initState [] with fieldMaps := [[]] }

/-- A state owning two empty instance field maps. -/
def stTwoInst : State := { initState [] with fieldMaps := [[], []] }

/-- A user function with an empty body, not an initializer, closing over
the globals frame. -/
def funF0 : LoxFunction := .mk false 0 (.mk tokFoo [] []) 5

/-- An initializer with an empty body whose closure frame (reference 1)
binds `this`. -/
def funInit1 : LoxFunction := .mk true 1 (.mk tokFoo [] []) 6

/-- A state whose frame 1 binds `this` to an instance, as `LoxFunction::bind`
produces for a method of `classA`. -/
def stThis : State :=
  { initState [] with
    envs := (initState []).envs ++ [⟨some 0, [("this", .instance_ instA0)]⟩]
    fieldMaps := [[]] }

/-- The `execute_block` run inside a call of `funF0` on no arguments from
the fresh interpreter state. -/
def c4innerPlain : State × Except Err Res :=
  interp 2 (.block [] (loxFunctionEnv (initState []) funF0 []).2)
    (loxFunctionEnv (initState []) funF0 []).1

/-- The `execute_block` run inside a call of the initializer `funInit1` on
no arguments from `stThis`. -/
def c4innerInit : State × Except Err Res :=
  interp 2 (.block [] (loxFunctionEnv stThis funInit1 []).2)
    (loxFunctionEnv stThis funInit1 []).1

/-! ## Theorems -/

/-- Helper: `Environment::ancestor` never produces a `Return` signal (its
only failure is the `unwrap` panic). -/
theorem ancestor_no_ret (s : State) (d : Nat) :
    ∀ (ref : Nat) (v : Object), ancestor s ref d ≠ .error (.ret v) := by
  induction d with
  | zero => intro ref v h; simp [ancestor] at h
  | succ n ih =>
    intro ref v h
    rw [ancestor] at h
    split at h
    · exact ih _ v h
    · simp at h

/-- Helper: `Environment::get_at` never produces a `Return` signal (its
failures are panics). -/
theorem envGetAt_no_ret (s : State) (ref d : Nat) (name : String) (v : Object) :
    envGetAt s ref d name ≠ .error (.ret v) := by
  intro h
  rw [envGetAt] at h
  split at h
  · next e heq =>
      injection h with h'
      subst h'
      exact ancestor_no_ret s d ref v heq
  · split at h
    · simp at h
    · simp at h

/-- C9: `Parser::for_statement` returns exactly the desugared form the
specification describes: a While whose condition is the given condition (or
a `true` literal when absent) and whose body is the original body followed
by an expression statement of the increment (when present), all wrapped in
a Block with the initializer when one is present.  No `for` node can appear
in the output: the `Stmt` type has no `for` variant at all. -/
theorem for_statement_desugaring (freshId : Nat) (initializer : Option Stmt)
    (condition : Option Expr) (increment : Option Expr) (body0 : Stmt) :
    forStatementDesugar freshId initializer condition increment body0
      = forDesugarSpec freshId initializer condition increment body0 := by
  cases initializer <;> cases condition <;> cases increment <;> rfl

/-- C3: `Interpreter::execute_block` restores the interpreter's current
environment to exactly the environment that was current before the block,
on every exit path: normal completion, a `Return` signal, or a runtime
error (all errors travel the same channel). -/
theorem execute_block_restores_environment (fuel : Nat) (stmts : List Stmt)
    (env : Nat) (s : State) :
    ((interp fuel (.block stmts env) s).1).environment = s.environment := by
  cases fuel with
  | zero => rfl
  | succ n =>
    rw [interp]
    cases h : interp n (.seq stmts) { s with environment := env } with
    | mk s' r => cases r <;> simp

/-- C8: the interpreter's equality test is reflexive for numbers including
NaN: `is_equal` on two equal numbers is true even for NaN, any two NaN
numbers compare equal (deliberately deviating from IEEE-754, whose `==` is
`F64.beq`), and evaluating a Binary `==` expression on the same number
literal on both sides yields `true`. -/
theorem number_equality_reflexive_including_nan :
    (∀ (s : State) (fuel : Nat) (x : F64),
      isEqual s fuel (.number x) (.number x) = true) ∧
    (∀ (s : State) (fuel : Nat) (x y : F64), x.isNan = true → y.isNan = true →
      isEqual s fuel (.number x) (.number y) = true) ∧
    (∀ (n : Nat) (s : State) (i1 i2 i3 : Nat) (op : Token) (x : F64),
      op.type_ = .equalEqual →
      interp (n + 2)
        (.expr (.binary i1 (.literal i2 (.number x)) op (.literal i3 (.number x)))) s
        = (s, .ok (.obj (.boolean true)))) := by
  have h1 : ∀ (s : State) (fuel : Nat) (x : F64),
      isEqual s fuel (.number x) (.number x) = true := by
    intro s fuel x
    cases x with
    | nan p => simp [isEqual, F64.isNan]
    | fin q => simp [isEqual, F64.isNan, objEq, F64.beq]
  refine ⟨h1, fun s fuel x y hx hy => ?_, fun n s i1 i2 i3 op x hop => ?_⟩
  · cases x <;> cases y <;> simp_all [isEqual, F64.isNan]
  · cases op with
    | mk ty lex line =>
      simp only at hop
      subst hop
      simp [interp, h1]

/-- C10: the duplicate-declaration check of `Resolver::declare` fires only
when the lexical scope stack is non-empty: with an empty stack `declare` is
the identity (no error, no scope change), so declaring the same name twice
with `var` at the top level produces no resolver error, as the concrete run
of `var a = 1; var a = 2;` confirms. -/
theorem global_redeclaration_allowed :
    (∀ (st : RState) (name : Token), st.scopes = [] → declare st name = st) ∧
    (resolveProgram 10 prog10).errors = [] ∧
    (resolveProgram 10 prog10).stuck = false := by
  refine ⟨fun st name h => ?_, rfl, rfl⟩
  simp [declare, h]

/-- Witness for C10: `declare` at the initial (global) resolver state. -/
theorem global_redeclaration_allowed_witness : declare rInit tokA = rInit :=
  global_redeclaration_allowed.1 rInit tokA rfl

/-- C7: running `fun foo(){ a = 1; } foo();` resolves without error or
recorded locals, produces no output, and stops with exactly one runtime
error whose message is exactly "Undefined variable a." (no quotes around
the name: the message comes from `EnvironmentInternal::assign` on the
globals chain, not from `get`), reported on the `a` token. -/
theorem undefined_variable_assignment_run :
    (resolveProgram 20 prog7).errors = [] ∧
    (resolveProgram 20 prog7).stuck = false ∧
    ((interpretRun 20 prog7 (initState (resolveProgram 20 prog7).locals)).1).output
      = [] ∧
    (interpretRun 20 prog7 (initState (resolveProgram 20 prog7).locals)).2
      = some (.runtime tokA "Undefined variable a.") :=
  ⟨rfl, rfl, rfl, rfl⟩

/-- C5 (amended): a Get expression on an instance whose name is neither a
field nor a method found through the superclass chain fails with the
runtime error "Undefined property <name>." — without quotes around the
name, which is how `lox_instance.rs` formats it — on the property-name
token. -/
theorem undefined_property_message (fuel : Nat) (s s' : State) (eid : Nat)
    (objE : Expr) (name : Token) (i : LoxInstance)
    (hobj : interp fuel (.expr objE) s = (s', .ok (.obj (.instance_ i))))
    (hf : ((s'.fieldMaps.getD i.fields []).lookup name.lexeme) = none)
    (hm : i.classOf.findMethod name.lexeme = none) :
    interp (fuel + 1) (.expr (.get eid objE name)) s
      = (s', .error (.runtime name ("Undefined property " ++ name.lexeme ++ "."))) := by
  rw [interp]
  simp only [hobj, instanceGet, hf, hm]

/-- Witness for C5: a concrete lookup of `foo` on a fieldless instance of a
methodless class. -/
theorem undefined_property_message_witness :
    interp 2 (.expr (.get 0 (.literal 5 (.instance_ instA0)) tokFoo)) stOneInst
      = (stOneInst,
          .error (.runtime tokFoo ("Undefined property " ++ tokFoo.lexeme ++ "."))) :=
  undefined_property_message 1 stOneInst stOneInst 0 _ tokFoo instA0 rfl rfl rfl

/-- Counterexample for C5 as stated: the message carries no quotes around
the property name, so it is not "Undefined property '<name>'." (that quoted
form appears only in `visit_super_expr`). -/
theorem undefined_property_unquoted_cx :
    (interp 2 (.expr (.get 0 (.literal 5 (.instance_ instA0)) tokFoo)) stOneInst).2
      = .error (.runtime tokFoo "Undefined property foo.") ∧
    "Undefined property foo." ≠ "Undefined property 'foo'." :=
  ⟨rfl, by decide⟩

/-- Counterexample for C2 as stated: two distinct instances (different
field-map references, hence different runtime objects) of the same class
with equal (empty) field maps compare equal under the interpreter's `==`
(`LoxInstance` derives structural `PartialEq` and carries no unique id). -/
theorem instance_equality_structural_cx :
    isEqual stTwoInst 1 (.instance_ instA0) (.instance_ instA1) = true ∧
    instA0 ≠ instA1 := by
  refine ⟨rfl, fun h => ?_⟩
  injection h with h1 h2
  exact absurd h2 (by decide)

/-- C2 (amended): `Object` equality is by identity — same process-unique
id — for the Callable and Class variants only; Instance values compare
structurally: same class (by id) and field maps equal valuewise, so two
distinct instances of the same class with equal field maps are equal. -/
theorem object_equality_by_variant :
    (∀ (s : State) (fuel : Nat) (a b : LoxCallable),
      objEq s fuel (.callable a) (.callable b) = (a.id == b.id)) ∧
    (∀ (s : State) (fuel : Nat) (a b : LoxClass),
      objEq s fuel (.class_ a) (.class_ b) = (a.id == b.id)) ∧
    (∀ (s : State) (fuel : Nat) (i j : LoxInstance),
      objEq s (fuel + 1) (.instance_ i) (.instance_ j)
        = (i.classOf.id == j.classOf.id &&
            mapsEqBy (objEq s fuel) (s.fieldMaps.getD i.fields [])
              (s.fieldMaps.getD j.fields []))) := by
  refine ⟨fun s fuel a b => ?_, fun s fuel a b => ?_, fun s fuel i j => ?_⟩ <;>
    simp [objEq]

/-- C6: `visit_call_expr` evaluates the callee, then all arguments left to
right (an argument error propagates before any check), and only then
checks, on the call's `paren` token (the closing `)` consumed by
`Parser::finish_call`): a callee that is neither a callable nor a class
(the class case is wrapped into its class-callable first) raises "Can only
call functions and classes."; a callable whose arity differs from the
argument count raises exactly "Expected N arguments but got M."; otherwise
the callable is invoked with the evaluated arguments. -/
theorem call_expr_checks_and_order (fuel : Nat) (s : State) (eid : Nat)
    (callee : Expr) (paren : Token) (args : List Expr) :
    (∀ (s' : State) (c : Object) (s'' : State) (e : Err),
      interp fuel (.expr callee) s = (s', .ok (.obj c)) →
      interp fuel (.exprs args) s' = (s'', .error e) →
      interp (fuel + 1) (.expr (.call eid callee paren args)) s = (s'', .error e)) ∧
    (∀ (s' : State) (c : Object) (s'' : State) (vs : List Object),
      interp fuel (.expr callee) s = (s', .ok (.obj c)) →
      interp fuel (.exprs args) s' = (s'', .ok (.objs vs)) →
      (∀ g : LoxCallable, calleeWrap c ≠ .callable g) →
      interp (fuel + 1) (.expr (.call eid callee paren args)) s
        = (s'', .error (.runtime paren "Can only call functions and classes."))) ∧
    (∀ (s' : State) (c : Object) (s'' : State) (vs : List Object) (g : LoxCallable),
      interp fuel (.expr callee) s = (s', .ok (.obj c)) →
      interp fuel (.exprs args) s' = (s'', .ok (.objs vs)) →
      calleeWrap c = .callable g →
      vs.length ≠ g.arity →
      interp (fuel + 1) (.expr (.call eid callee paren args)) s
        = (s'', .error (.runtime paren
            ("Expected " ++ toString g.arity ++ " arguments but got " ++
              toString vs.length ++ ".")))) ∧
    (∀ (s' : State) (c : Object) (s'' : State) (vs : List Object) (g : LoxCallable),
      interp fuel (.expr callee) s = (s', .ok (.obj c)) →
      interp fuel (.exprs args) s' = (s'', .ok (.objs vs)) →
      calleeWrap c = .callable g →
      vs.length = g.arity →
      interp (fuel + 1) (.expr (.call eid callee paren args)) s
        = interp fuel (.call g vs) s'') := by
  refine ⟨fun s' c s'' e hc ha => ?_,
          fun s' c s'' vs hc ha hnc => ?_,
          fun s' c s'' vs g hc ha hw hne => ?_,
          fun s' c s'' vs g hc ha hw hlen => ?_⟩
  · rw [interp]; simp only [hc, ha]
  · rw [interp]; simp only [hc, ha]
  · rw [interp]; simp only [hc, ha, hw]
    rw [if_pos hne]
  · rw [interp]; simp only [hc, ha, hw]
    rw [if_neg (fun hh => hh hlen)]

/-- Witness for C6: calling the number `1` (non-callable) reports "Can only
call functions and classes." on the paren token, and calling the built-in
`clock` (arity 0) with one argument reports "Expected 0 arguments but got
1." on the paren token. -/
theorem call_expr_checks_and_order_witness :
    interp 2 (.expr (.call 7 (.literal 6 (.number (.fin 1))) tokRParen []))
        (initState [])
      = (initState [],
          .error (.runtime tokRParen "Can only call functions and classes.")) ∧
    interp 3 (.expr (.call 9 (.variable_ 8 tokClock) tokRParen [.literal 10 .nil]))
        (initState [])
      = (initState [],
          .error (.runtime tokRParen "Expected 0 arguments but got 1.")) :=
  ⟨(call_expr_checks_and_order 1 (initState []) 7 (.literal 6 (.number (.fin 1)))
      tokRParen []).2.1 (initState []) (.number (.fin 1)) (initState []) [] rfl rfl
      (fun g h => by simp [calleeWrap] at h),
   (call_expr_checks_and_order 2 (initState []) 9 (.variable_ 8 tokClock)
      tokRParen [.literal 10 .nil]).2.2.1 (initState []) (.callable (.clock 1))
      (initState []) [.nil] (.clock 1) rfl rfl rfl (by decide)⟩

/-- Helper: mapping `Res.obj` over an `Except` that never carries a
`Return` signal cannot produce a `Return` signal. -/
theorem mapObj_no_ret (x : Except Err Object) (v : Object)
    (hx : ∀ w, x ≠ .error (.ret w)) : x.map Res.obj ≠ .error (.ret v) := by
  intro h
  cases x with
  | ok w => simp [Except.map] at h
  | error e =>
    simp [Except.map] at h
    exact hx v (by rw [h])

/-- C4: `LoxFunction::call` semantics.  The `Return` signal raised by a
`return` statement never escapes a call: the call's result is never a
`Return` error.  For a non-initializer, a body that completes without a
`return` yields nil, and a body that raises `Return v` yields `v`.  For an
initializer, both outcomes yield the `this` binding read at distance 0 in
the function's closure, discarding any returned value.  The inner execution
is `execute_block` on the body in the freshly built parameter frame
(`loxFunctionEnv`). -/
theorem lox_function_call_semantics (fuel : Nat) (f : LoxFunction)
    (args : List Object) (s : State) :
    (∀ v, (interp (fuel + 1) (.call (.function f) args) s).2 ≠ .error (.ret v)) ∧
    (∀ (s2 : State) (r : Res), f.isInit = false →
      interp fuel (.block f.declaration.body (loxFunctionEnv s f args).2)
        (loxFunctionEnv s f args).1 = (s2, .ok r) →
      interp (fuel + 1) (.call (.function f) args) s = (s2, .ok (.obj .nil))) ∧
    (∀ (s2 : State) (v : Object), f.isInit = false →
      interp fuel (.block f.declaration.body (loxFunctionEnv s f args).2)
        (loxFunctionEnv s f args).1 = (s2, .error (.ret v)) →
      interp (fuel + 1) (.call (.function f) args) s = (s2, .ok (.obj v))) ∧
    (∀ (s2 : State) (r : Res), f.isInit = true →
      interp fuel (.block f.declaration.body (loxFunctionEnv s f args).2)
        (loxFunctionEnv s f args).1 = (s2, .ok r) →
      interp (fuel + 1) (.call (.function f) args) s
        = (s2, (envGetAt s2 f.closure 0 "this").map .obj)) ∧
    (∀ (s2 : State) (v : Object), f.isInit = true →
      interp fuel (.block f.declaration.body (loxFunctionEnv s f args).2)
        (loxFunctionEnv s f args).1 = (s2, .error (.ret v)) →
      interp (fuel + 1) (.call (.function f) args) s
        = (s2, (envGetAt s2 f.closure 0 "this").map .obj)) := by
  rcases hle : loxFunctionEnv s f args with ⟨s1, env⟩
  refine ⟨fun v hcon => ?_,
          fun s2 r hini hin => ?_,
          fun s2 v hini hin => ?_,
          fun s2 r hini hin => ?_,
          fun s2 v hini hin => ?_⟩
  · rw [interp] at hcon
    simp only [hle] at hcon
    rcases hres : interp fuel (.block f.declaration.body env) s1 with ⟨s3, r3⟩
    rw [hres] at hcon
    cases r3 with
    | ok r =>
      cases hini : f.isInit with
      | true =>
        simp only [hini, if_true] at hcon
        exact mapObj_no_ret _ v (fun w => envGetAt_no_ret s3 f.closure 0 "this" w) hcon
      | false => simp [hini] at hcon
    | error e =>
      cases e with
      | ret w =>
        cases hini : f.isInit with
        | true =>
          simp only [hini, if_true] at hcon
          exact mapObj_no_ret _ v (fun u => envGetAt_no_ret s3 f.closure 0 "this" u) hcon
        | false => simp [hini] at hcon
      | runtime t m => simp at hcon
      | panicked m => simp at hcon
      | outOfFuel => simp at hcon
  · rw [interp]
    simp only [hle] at hin ⊢
    rw [hin, hini]
    simp
  · rw [interp]
    simp only [hle] at hin ⊢
    rw [hin, hini]
    simp
  · rw [interp]
    simp only [hle] at hin ⊢
    rw [hin, hini]
    simp
  · rw [interp]
    simp only [hle] at hin ⊢
    rw [hin, hini]
    simp

/-- Witness for C8: two NaNs compare equal, and `NaN == NaN` evaluates to
`true` through the interpreter. -/
theorem number_equality_reflexive_including_nan_witness :
    isEqual (initState []) 0 (.number (.nan 0)) (.number (.nan 0)) = true ∧
    isEqual (initState []) 0 (.number (.nan 0)) (.number (.nan 1)) = true ∧
    interp 2 (.expr (.binary 0 (.literal 1 (.number (.nan 0))) tokEqEq
        (.literal 2 (.number (.nan 0))))) (initState [])
      = (initState [], .ok (.obj (.boolean true))) :=
  ⟨number_equality_reflexive_including_nan.1 (initState []) 0 (.nan 0),
   number_equality_reflexive_including_nan.2.1 (initState []) 0 (.nan 0) (.nan 1)
     rfl rfl,
   number_equality_reflexive_including_nan.2.2 0 (initState []) 0 1 2 tokEqEq
     (.nan 0) rfl⟩

/-- Witness for C4: a call of the empty non-initializer yields nil, and a
call of the empty initializer yields the closure's `this`. -/
theorem lox_function_call_semantics_witness :
    interp 3 (.call (.function funF0) []) (initState [])
      = (c4innerPlain.1, .ok (.obj .nil)) ∧
    interp 3 (.call (.function funInit1) []) stThis
      = (c4innerInit.1, (envGetAt c4innerInit.1 funInit1.closure 0 "this").map .obj) :=
  ⟨(lox_function_call_semantics 2 funF0 [] (initState [])).2.1 c4innerPlain.1
      .unit rfl rfl,
   (lox_function_call_semantics 2 funInit1 [] stThis).2.2.2.1 c4innerInit.1
      .unit rfl rfl⟩

end LoxTW
